import Mathlib

/-!
Shallow embedding of the report-conversation bot in src/bot.py: the
seven ConversationHandler states plus the terminal END, the per-user
user_data dictionary, the step handlers, the Drive upload wrapper, the
sheet append wrapper, and the event dispatch configured in main().
External collaborators (Telegram transport, Google Drive, Google Sheets)
are modelled by their outcomes: a photo event carries the outcome of the
Drive upload and of the sheet append that the handler would perform.
-/

namespace BotChoferes

/-- The seven conversation states TIPO_JORNADA .. FOTO_ESTADO = range(7)
declared at bot.py line 36, plus the terminal ConversationHandler.END. -/
inductive ConvState where
  | TIPO_JORNADA
  | NOMBRE
  | PLACA
  | KILOMETRAJE
  | FOTO_PLACA
  | FOTO_KILOMETRAJE
  | FOTO_ESTADO
  | END
  deriving DecidableEq, Repr

/-- The per-user context.user_data dictionary. Each key that the handlers
ever write is one optional field; a field is none when the key is absent. -/
structure UserData where
  tipo_jornada : Option String := none
  nombre : Option String := none
  placa : Option String := none
  kilometraje : Option String := none
  link_foto_placa : Option String := none
  foto_placa_local : Option String := none
  link_foto_kilometraje : Option String := none
  foto_km_local : Option String := none
  link_foto_estado : Option String := none
  foto_estado_local : Option String := none
  fecha_hora : Option String := none
  deriving DecidableEq, Repr

/-- The empty dictionary: the result of context.user_data.clear(). -/
def emptyUserData : UserData := {}

/-- Result of running one handler: the updated user_data, the state the
handler returns, the text replies it sends, the rows it passes to the
sheet append_row call, and the local paths it passes to os.remove. -/
structure HandlerResult where
  userData : UserData
  next : ConvState
  replies : List String
  sheetAppends : List (List String) := []
  removedFiles : List String := []
  deriving DecidableEq, Repr

/-- Outcomes of the external services consumed by one photo event:
driveOutcome is some webViewLink when the Drive upload succeeds and none
when it raises; now is the datetime.now() string used in the filename;
nowStamp is the datetime.now() string stamped as fecha_hora; appendOk
tells whether the sheet append_row call succeeds (both used by the
final photo handler only). -/
structure PhotoEnv where
  driveOutcome : Option String
  now : String
  nowStamp : String
  appendOk : Bool
  deriving DecidableEq, Repr

/-- Membership of pat as a contiguous character run of l: the Python
substring operator on the underlying character lists. -/
def needleIn (pat : List Char) : List Char → Bool
  | [] => pat.isEmpty
  | c :: rest => pat.isPrefixOf (c :: rest) || needleIn pat rest

/-- The Python expression needle in hay for strings. -/
def pyIn (needle hay : String) : Bool :=
  needleIn needle.data hay.data

/-- subir_foto_a_drive (bot.py 89-118): on success the Drive calls return
the webViewLink of the uploaded file; on any exception the function
returns the fixed sentinel string instead of raising. -/
def subir_foto_a_drive (driveOutcome : Option String) : String :=
  match driveOutcome with
  | some link => link
  | none => "Error al subir"

/-- The header row created by inicializar_sheet (bot.py 65-87) when the
sheet has no first row. -/
def headers : List String :=
  ["Fecha y Hora",
   "Tipo de Jornada",
   "Nombre del Chofer",
   "Placa",
   "Kilometraje",
   "Link Foto Placa",
   "Link Foto Kilometraje",
   "Link Foto Estado Moto"]

/-- The fila list built by guardar_reporte_en_sheet (bot.py 124-133) from
the eight dictionary accesses, in source order. A missing key raises
KeyError, so the list exists only when all eight fields are present. -/
def fila (datos : UserData) : Option (List String) :=
  match datos.fecha_hora, datos.tipo_jornada, datos.nombre, datos.placa,
        datos.kilometraje, datos.link_foto_placa, datos.link_foto_kilometraje,
        datos.link_foto_estado with
  | some a, some b, some c, some d, some e, some f, some g, some h =>
      some [a, b, c, d, e, f, g, h]
  | _, _, _, _, _, _, _, _ => none

/-- guardar_reporte_en_sheet (bot.py 120-139): returns whether the save
succeeded together with the rows actually passed to append_row. A
KeyError while building fila is caught before append_row is reached, so
nothing is appended and the function returns False; when fila is built,
the one row is passed to append_row and the result is True exactly when
that call does not raise. -/
def guardar_reporte_en_sheet (appendOk : Bool) (datos : UserData) :
    Bool × List (List String) :=
  match fila datos with
  | none => (false, [])
  | some r => (appendOk, [r])

/-- iniciar_reporte (bot.py 152-167): context.user_data.clear(), then the
journey-type keyboard prompt, returning TIPO_JORNADA. The previous
dictionary contents are discarded entirely. -/
def iniciar_reporte (_ud : UserData) : HandlerResult :=
  { userData := emptyUserData
    next := ConvState.TIPO_JORNADA
    replies := ["Selecciona el tipo de jornada:"] }

/-- tipo_jornada (bot.py 169-183): classify the text by substring tests
and store the canonical label, then prompt for the name. -/
def tipo_jornada (ud : UserData) (text : String) : HandlerResult :=
  let v := if pyIn "🟢" text || pyIn "Inicio" text then "Inicio de Jornada"
           else "Fin de Jornada"
  { userData := { ud with tipo_jornada := some v }
    next := ConvState.NOMBRE
    replies := ["Por favor, escribe tu nombre completo:"] }

/-- nombre (bot.py 185-193): store the text verbatim, prompt for plate. -/
def nombre (ud : UserData) (text : String) : HandlerResult :=
  { userData := { ud with nombre := some text }
    next := ConvState.PLACA
    replies := ["Escribe la placa del vehículo:"] }

/-- placa (bot.py 195-203): store the uppercased text, prompt for the
odometer reading. -/
def placa (ud : UserData) (text : String) : HandlerResult :=
  { userData := { ud with placa := some text.toUpper }
    next := ConvState.KILOMETRAJE
    replies := ["Escribe el kilometraje actual:"] }

/-- kilometraje (bot.py 205-213): store the text verbatim and prompt for
the plate photo. No validation of any kind is performed on the text. -/
def kilometraje (ud : UserData) (text : String) : HandlerResult :=
  { userData := { ud with kilometraje := some text }
    next := ConvState.FOTO_PLACA
    replies := ["📸 Envía una foto de la PLACA del vehículo:"] }

/-- foto_placa (bot.py 215-238): reads user_data at key placa (KeyError,
hence none, when absent), downloads the photo to /tmp, uploads it to
Drive, stores the returned link (or the failure sentinel) and the local
path, and advances to FOTO_KILOMETRAJE. -/
def foto_placa (ud : UserData) (env : PhotoEnv) : Option HandlerResult :=
  match ud.placa with
  | none => none
  | some p =>
    let nombre_archivo := "placa_" ++ p ++ "_" ++ env.now ++ ".jpg"
    let ruta_local := "/tmp/" ++ nombre_archivo
    let link := subir_foto_a_drive env.driveOutcome
    some { userData := { ud with link_foto_placa := some link,
                                 foto_placa_local := some ruta_local }
           next := ConvState.FOTO_KILOMETRAJE
           replies := ["⏳ Subiendo foto de placa a Drive...",
                       "✅ Foto de placa guardada.\n\n📸 Ahora envía una foto del KILOMETRAJE:"] }

/-- foto_kilometraje (bot.py 240-260): same shape as foto_placa, storing
the odometer photo link and local path, advancing to FOTO_ESTADO. -/
def foto_kilometraje (ud : UserData) (env : PhotoEnv) : Option HandlerResult :=
  match ud.placa with
  | none => none
  | some p =>
    let nombre_archivo := "km_" ++ p ++ "_" ++ env.now ++ ".jpg"
    let ruta_local := "/tmp/" ++ nombre_archivo
    let link := subir_foto_a_drive env.driveOutcome
    some { userData := { ud with link_foto_kilometraje := some link,
                                 foto_km_local := some ruta_local }
           next := ConvState.FOTO_ESTADO
           replies := ["⏳ Subiendo foto de kilometraje a Drive...",
                       "✅ Foto de kilometraje guardada.\n\n📸 Por último, envía una foto del ESTADO GENERAL de la moto:"] }

/-- The failure notice sent by foto_estado when guardar_reporte_en_sheet
returns False (bot.py 306-309). -/
def failureReplyText : String :=
  "❌ Hubo un error al guardar el reporte.\nPor favor, intenta nuevamente con /reporte"

/-- The success summary sent by foto_estado (bot.py 294-304). The four
dictionary accesses in the f-string cannot raise on the branch where the
message is sent, because a successful save implies every field is
present; getD supplies the value on that branch. -/
def successReplyText (ud : UserData) : String :=
  "✅ ¡Reporte completado exitosamente! ✅\n\n" ++
  "📋 Resumen:\n" ++
  "• Tipo: " ++ ud.tipo_jornada.getD "" ++ "\n" ++
  "• Chofer: " ++ ud.nombre.getD "" ++ "\n" ++
  "• Placa: " ++ ud.placa.getD "" ++ "\n" ++
  "• Kilometraje: " ++ ud.kilometraje.getD "" ++ " km\n\n" ++
  "Toda la información ha sido guardada en Google Sheets " ++
  "y las fotos en Google Drive.\n\n" ++
  "Usa /reporte para hacer otro reporte. 🏍️"

/-- foto_estado (bot.py 262-311): uploads the condition photo, stores its
link and local path, stamps fecha_hora, calls guardar_reporte_en_sheet,
best-effort removes the locally cached photo files present in user_data,
reports success or failure, and returns ConversationHandler.END. The
user_data dictionary is not cleared on either branch. -/
def foto_estado (ud : UserData) (env : PhotoEnv) : Option HandlerResult :=
  match ud.placa with
  | none => none
  | some p =>
    let nombre_archivo := "estado_" ++ p ++ "_" ++ env.now ++ ".jpg"
    let ruta_local := "/tmp/" ++ nombre_archivo
    let link := subir_foto_a_drive env.driveOutcome
    let ud1 := { ud with link_foto_estado := some link,
                         foto_estado_local := some ruta_local,
                         fecha_hora := some env.nowStamp }
    let res := guardar_reporte_en_sheet env.appendOk ud1
    let removed := List.filterMap id
      [ud1.foto_placa_local, ud1.foto_km_local, ud1.foto_estado_local]
    some { userData := ud1
           next := ConvState.END
           replies := ["⏳ Subiendo foto de estado a Drive...",
                       "💾 Guardando reporte en Google Sheets...",
                       if res.1 then successReplyText ud1 else failureReplyText]
           sheetAppends := res.2
           removedFiles := removed }

/-- cancelar (bot.py 313-319): sends the acknowledgment and returns
ConversationHandler.END. It does not touch context.user_data. -/
def cancelar (ud : UserData) : HandlerResult :=
  { userData := ud
    next := ConvState.END
    replies := ["Reporte cancelado. Usa /reporte para iniciar uno nuevo."] }

/-- A conversation session: the ConversationHandler state for the user
together with the user_data dictionary. END doubles as the idle state in
which no conversation is active. -/
structure Sess where
  state : ConvState
  userData : UserData
  deriving DecidableEq, Repr

/-- An inbound event for one user, as routed by the dispatch configured
in main() (bot.py 371-383): the /reporte entry command, the /cancelar
fallback command, a non-command text message, or a photo message carrying
the outcomes of the external calls its handler will make. -/
inductive Event where
  | reporteCmd
  | cancelarCmd
  | textMsg (s : String)
  | photoMsg (env : PhotoEnv)
  deriving DecidableEq, Repr

/-- Result of an event no handler of the current state accepts: state and
user_data unchanged, no replies, no effects. -/
def unhandled (s : Sess) : HandlerResult :=
  { userData := s.userData, next := s.state, replies := [] }

/-- One dispatch round of the ConversationHandler configured in main()
(bot.py 371-383): text events go to the text handler of the current
state, photo events to the photo handler of the current state, and
/cancelar to the fallback from any active state. The handler leaves
allow_reentry at its default False, so during an active conversation
entry points are not checked; since the state handlers exclude commands
(filters.TEXT and not filters.COMMAND) and the only fallback is
/cancelar, a /reporte issued mid-conversation matches no handler and is
silently ignored. Only from the idle END position does /reporte reach
the entry point iniciar_reporte. An event no handler of the current
state accepts is unhandled, and a photo handler that raises (the none
case) leaves the conversation state unchanged via the top-level error
handler. -/
def step (s : Sess) (ev : Event) : HandlerResult :=
  match ev with
  | Event.reporteCmd =>
      match s.state with
      | ConvState.END => iniciar_reporte s.userData
      | _ => unhandled s
  | Event.cancelarCmd =>
      match s.state with
      | ConvState.END => unhandled s
      | _ => cancelar s.userData
  | Event.textMsg t =>
      match s.state with
      | ConvState.TIPO_JORNADA => tipo_jornada s.userData t
      | ConvState.NOMBRE => nombre s.userData t
      | ConvState.PLACA => placa s.userData t
      | ConvState.KILOMETRAJE => kilometraje s.userData t
      | _ => unhandled s
  | Event.photoMsg env =>
      match s.state with
      | ConvState.FOTO_PLACA =>
          match foto_placa s.userData env with
          | some r => r
          | none => unhandled s
      | ConvState.FOTO_KILOMETRAJE =>
          match foto_kilometraje s.userData env with
          | some r => r
          | none => unhandled s
      | ConvState.FOTO_ESTADO =>
          match foto_estado s.userData env with
          | some r => r
          | none => unhandled s
      | _ => unhandled s

/-- Run a list of events from a session, collecting every row passed to
the sheet append_row call along the way. -/
def run (s : Sess) (evs : List Event) : Sess × List (List String) :=
  match evs with
  | [] => (s, [])
  | ev :: rest =>
      let r := step s ev
      let tail := run ⟨r.next, r.userData⟩ rest
      (tail.1, r.sheetAppends ++ tail.2)

/-- Modelled from the spec: the odometer validation predicate the spec
describes for odometer input, which is absent from the kilometraje
handler in the source. A string parses as a decimal number when, after
stripping grouping separators, it is nonempty, consists of digits and at
most one decimal point, and holds at least one digit. This definition
exists only to state claim C1 in the terms the spec uses. -/
def specParsesAsDecimal (s : String) : Bool :=
  let t := s.data.filter fun c => c != ','
  !t.isEmpty && t.all (fun c => c.isDigit || c == '.') &&
    (t.filter fun c => c == '.').length ≤ 1 && t.any Char.isDigit

/-- The persisted report fields as the spec words them. -/
inductive ReportField where
  | timestamp
  | journeyType
  | driverName
  | plate
  | odometer
  | platePhotoLink
  | odometerPhotoLink
  | conditionPhotoLink
  deriving DecidableEq, Repr

/-- Modelled from the spec: the fixed field order of the persisted
record: timestamp, journey type, driver name, plate, odometer, then the
three photo links (plate, odometer, condition). -/
def specFieldOrder : List ReportField :=
  [ReportField.timestamp, ReportField.journeyType, ReportField.driverName,
   ReportField.plate, ReportField.odometer, ReportField.platePhotoLink,
   ReportField.odometerPhotoLink, ReportField.conditionPhotoLink]

/-- The user_data key holding each spec-level report field. -/
def fieldValue (ud : UserData) : ReportField → Option String
  | ReportField.timestamp => ud.fecha_hora
  | ReportField.journeyType => ud.tipo_jornada
  | ReportField.driverName => ud.nombre
  | ReportField.plate => ud.placa
  | ReportField.odometer => ud.kilometraje
  | ReportField.platePhotoLink => ud.link_foto_placa
  | ReportField.odometerPhotoLink => ud.link_foto_kilometraje
  | ReportField.conditionPhotoLink => ud.link_foto_estado

/-- The header cell announcing each spec-level report field. -/
def specHeader : ReportField → String
  | ReportField.timestamp => "Fecha y Hora"
  | ReportField.journeyType => "Tipo de Jornada"
  | ReportField.driverName => "Nombre del Chofer"
  | ReportField.plate => "Placa"
  | ReportField.odometer => "Kilometraje"
  | ReportField.platePhotoLink => "Link Foto Placa"
  | ReportField.odometerPhotoLink => "Link Foto Kilometraje"
  | ReportField.conditionPhotoLink => "Link Foto Estado Moto"

/-- A draft as it stands mid-conversation, after the journey type was
chosen and before any later field is set. -/
def sampleMidDraft : UserData := { tipo_jornada := some "Inicio de Jornada" }

/-- A draft holding only the plate, as foto_placa may observe it. -/
def sampleDraftPlacaOnly : UserData := { placa := some "ABC123" }

/-- A fully populated draft as it stands on entering FOTO_ESTADO. -/
def sampleFullDraft : UserData :=
  { tipo_jornada := some "Inicio de Jornada"
    nombre := some "Juan Perez"
    placa := some "ABC123"
    kilometraje := some "1000"
    link_foto_placa := some "linkP"
    foto_placa_local := some "/tmp/placa.jpg"
    link_foto_kilometraje := some "linkK"
    foto_km_local := some "/tmp/km.jpg" }

/-- Photo-event outcomes where the Drive upload succeeds and the sheet
append fails. -/
def envFail : PhotoEnv :=
  { driveOutcome := some "linkE"
    now := "20240101_000000"
    nowStamp := "2024-01-01 00:00:00"
    appendOk := false }

/-- Photo-event outcomes where every external call succeeds. -/
def envOk : PhotoEnv :=
  { driveOutcome := some "linkE"
    now := "20240101_000000"
    nowStamp := "2024-01-01 00:00:00"
    appendOk := true }

/-- Photo-event outcomes where the Drive upload raises. -/
def envNoDrive : PhotoEnv :=
  { driveOutcome := none
    now := "20240101_000000"
    nowStamp := "2024-01-01 00:00:00"
    appendOk := true }

end BotChoferes

namespace BotChoferes

/-- Auxiliary: a step at the idle END state on any event other than the
entry command leaves everything unhandled. -/
theorem step_END_unhandled (ud : UserData) (ev : Event) (h : ev ≠ Event.reporteCmd) :
    step ⟨ConvState.END, ud⟩ ev = unhandled ⟨ConvState.END, ud⟩ := by
  cases ev with
  | reporteCmd => exact absurd rfl h
  | cancelarCmd => rfl
  | textMsg t => rfl
  | photoMsg env => rfl

/-- Auxiliary: with no entry command among the events, a run from the
idle END state changes nothing and appends nothing. -/
theorem run_from_END (ud : UserData) (evs : List Event)
    (h : Event.reporteCmd ∉ evs) :
    run ⟨ConvState.END, ud⟩ evs = (⟨ConvState.END, ud⟩, []) := by
  induction evs with
  | nil => rfl
  | cons ev rest ih =>
    rw [List.mem_cons] at h
    push_neg at h
    have h1 : ev ≠ Event.reporteCmd := fun e => h.1 e.symm
    simp [run, step_END_unhandled ud ev h1, unhandled, ih h.2]

/-- Auxiliary: the rows passed to append_row by one save call are either
none at all, or the single fila row of the fully populated draft. -/
theorem guardar_appends (appendOk : Bool) (datos : UserData) :
    (guardar_reporte_en_sheet appendOk datos).2 = [] ∨
    ∃ row, (guardar_reporte_en_sheet appendOk datos).2 = [row] ∧
      fila datos = some row := by
  cases hf : fila datos <;> simp [guardar_reporte_en_sheet, hf]

/-- Auxiliary: a failing append_row call makes the save return False. -/
theorem guardar_fst_false (appendOk : Bool) (datos : UserData)
    (h : appendOk = false) :
    (guardar_reporte_en_sheet appendOk datos).1 = false := by
  cases hf : fila datos <;> simp [guardar_reporte_en_sheet, hf, h]

/-- Auxiliary: inversion of a built fila row into its eight fields. -/
theorem fila_fields (ud : UserData) (row : List String) (h : fila ud = some row) :
    ∃ a b c d e f g h8, ud.fecha_hora = some a ∧ ud.tipo_jornada = some b ∧
      ud.nombre = some c ∧ ud.placa = some d ∧ ud.kilometraje = some e ∧
      ud.link_foto_placa = some f ∧ ud.link_foto_kilometraje = some g ∧
      ud.link_foto_estado = some h8 ∧ row = [a, b, c, d, e, f, g, h8] := by
  obtain ⟨f1, f2, f3, f4, f5, f6, f7, f8, f9, f10, f11⟩ := ud
  cases f11 <;> cases f1 <;> cases f2 <;> cases f3 <;> cases f4 <;>
    cases f5 <;> cases f7 <;> cases f9 <;> simp_all [fila]

/-- Auxiliary: the final photo handler ends the conversation and passes
to append_row either nothing or the one fila row of its own draft. -/
theorem foto_estado_appends (ud : UserData) (env : PhotoEnv) (r : HandlerResult)
    (h : foto_estado ud env = some r) :
    r.next = ConvState.END ∧
    (r.sheetAppends = [] ∨
      ∃ row, r.sheetAppends = [row] ∧ fila r.userData = some row) := by
  cases hp : ud.placa with
  | none => simp [foto_estado, hp] at h
  | some p =>
    simp only [foto_estado, hp, Option.some.injEq] at h
    subst h
    exact ⟨rfl, guardar_appends env.appendOk _⟩

/-- Auxiliary: every step emits either no append at all, or exactly one
row, built by fila from its own resulting draft, while ending the
conversation. -/
theorem step_appends_cases (s : Sess) (ev : Event) :
    (step s ev).sheetAppends = [] ∨
    ((step s ev).next = ConvState.END ∧
      ∃ row, (step s ev).sheetAppends = [row] ∧
        fila (step s ev).userData = some row) := by
  obtain ⟨st, ud⟩ := s
  cases ev with
  | reporteCmd => cases st <;> exact Or.inl rfl
  | cancelarCmd => cases st <;> simp [step, cancelar, unhandled]
  | textMsg t =>
    cases st <;>
      simp [step, tipo_jornada, nombre, placa, kilometraje, unhandled]
  | photoMsg env =>
    cases st with
    | FOTO_PLACA =>
      cases hp : ud.placa <;> simp [step, foto_placa, hp, unhandled]
    | FOTO_KILOMETRAJE =>
      cases hp : ud.placa <;> simp [step, foto_kilometraje, hp, unhandled]
    | FOTO_ESTADO =>
      cases hfe : foto_estado ud env with
      | none => left; simp [step, hfe, unhandled]
      | some r =>
        have hr := foto_estado_appends ud env r hfe
        rcases hr.2 with h0 | ⟨row, h1, h2⟩
        · left; simpa [step, hfe] using h0
        · right
          refine ⟨by simp [step, hfe, hr.1], row, by simp [step, hfe, h1],
            by simp [step, hfe, h2]⟩
    | TIPO_JORNADA => left; rfl
    | NOMBRE => left; rfl
    | PLACA => left; rfl
    | KILOMETRAJE => left; rfl
    | END => left; rfl

end BotChoferes

namespace BotChoferes

/-- C1 counterexample: the input abc does not parse as a decimal number,
yet the kilometraje handler stores it verbatim and advances to the photo
step instead of re-entering the odometer state. -/
theorem C1_counterexample :
    specParsesAsDecimal "abc" = false ∧
    sampleMidDraft.kilometraje = none ∧
    (kilometraje sampleMidDraft "abc").next = ConvState.FOTO_PLACA ∧
    (kilometraje sampleMidDraft "abc").next ≠ ConvState.KILOMETRAJE ∧
    (kilometraje sampleMidDraft "abc").userData.kilometraje = some "abc" := by
  exact ⟨by decide, rfl, rfl, by decide, rfl⟩

/-- C1 (amended): every text input at the odometer step is stored
verbatim as the kilometraje field and the conversation advances to the
plate-photo step; the handler performs no validation that could reject. -/
theorem C1_thm (ud : UserData) (t : String) :
    (kilometraje ud t).userData.kilometraje = some t ∧
    (kilometraje ud t).next = ConvState.FOTO_PLACA := ⟨rfl, rfl⟩

/-- C2 counterexample: cancelling from the NOMBRE state with a journey
type already stored ends the conversation but leaves the stored field in
user_data, so the draft is not discarded by the cancel handler. -/
theorem C2_counterexample :
    (step ⟨ConvState.NOMBRE, sampleMidDraft⟩ Event.cancelarCmd).next = ConvState.END ∧
    (step ⟨ConvState.NOMBRE, sampleMidDraft⟩ Event.cancelarCmd).userData ≠ emptyUserData ∧
    (step ⟨ConvState.NOMBRE, sampleMidDraft⟩ Event.cancelarCmd).userData.tipo_jornada =
      some "Inicio de Jornada" := by
  exact ⟨rfl, by decide, rfl⟩

/-- C2 (amended): from every non-terminal state the cancel command emits
the acknowledgment, returns the conversation to the terminal position,
and performs no sheet append; the user_data dictionary however is left
exactly as it was - it is only cleared by the next entry command. -/
theorem C2_thm (s : Sess) (h : s.state ≠ ConvState.END) :
    (step s Event.cancelarCmd).next = ConvState.END ∧
    (step s Event.cancelarCmd).sheetAppends = [] ∧
    (step s Event.cancelarCmd).replies =
      ["Reporte cancelado. Usa /reporte para iniciar uno nuevo."] ∧
    (step s Event.cancelarCmd).userData = s.userData := by
  obtain ⟨st, ud⟩ := s
  cases st <;> simp_all [step, cancelar]

/-- C2 witness: the amended cancellation behavior at the PLACA state. -/
theorem C2_witness :
    (step ⟨ConvState.PLACA, sampleMidDraft⟩ Event.cancelarCmd).next = ConvState.END ∧
    (step ⟨ConvState.PLACA, sampleMidDraft⟩ Event.cancelarCmd).sheetAppends = [] ∧
    (step ⟨ConvState.PLACA, sampleMidDraft⟩ Event.cancelarCmd).replies =
      ["Reporte cancelado. Usa /reporte para iniciar uno nuevo."] ∧
    (step ⟨ConvState.PLACA, sampleMidDraft⟩ Event.cancelarCmd).userData = sampleMidDraft :=
  C2_thm ⟨ConvState.PLACA, sampleMidDraft⟩ (by decide)

/-- C3 counterexample: with the sheet append failing, the final photo
handler ends the conversation but the draft is not discarded - the
stored name is still present in user_data afterwards. -/
theorem C3_counterexample :
    ((foto_estado sampleFullDraft envFail).map HandlerResult.userData).isSome = true ∧
    (foto_estado sampleFullDraft envFail).map HandlerResult.userData ≠ some emptyUserData ∧
    (foto_estado sampleFullDraft envFail).map (fun r => r.userData.nombre) =
      some (some "Juan Perez") := by
  exact ⟨by decide, by decide, by decide⟩

/-- C3 (amended): when the append fails at completion the user receives
the failure notice instructing a retry via the entry command as the last
reply, at most one append was attempted (no automatic or queued retry),
the locally cached photo files are deleted, and the conversation ends;
the draft fields are not cleared - only the next entry command does so. -/
theorem C3_thm (ud : UserData) (env : PhotoEnv) (p : String)
    (hp : ud.placa = some p) (hfail : env.appendOk = false) :
    ∃ r, foto_estado ud env = some r ∧
      r.next = ConvState.END ∧
      r.replies.getLast? = some failureReplyText ∧
      r.sheetAppends.length ≤ 1 ∧
      r.userData.fecha_hora = some env.nowStamp ∧
      r.userData ≠ emptyUserData ∧
      r.removedFiles ≠ [] := by
  simp only [foto_estado, hp, Option.some.injEq]
  refine ⟨_, rfl, rfl, ?_, ?_, rfl, ?_, ?_⟩
  · simp [guardar_fst_false env.appendOk _ hfail, List.getLast?]
  · rcases guardar_appends env.appendOk
      { ud with placa := some p,
                link_foto_estado := some (subir_foto_a_drive env.driveOutcome),
                foto_estado_local :=
                  some ("/tmp/" ++ ("estado_" ++ p ++ "_" ++ env.now ++ ".jpg")),
                fecha_hora := some env.nowStamp } with hg | ⟨row, hg, _⟩ <;>
      simp_all
  · intro hEq
    have hfh := congrArg UserData.fecha_hora hEq
    simp [emptyUserData] at hfh
  · cases h1 : ud.foto_placa_local <;> cases h2 : ud.foto_km_local <;>
      simp [List.filterMap, h1, h2]

/-- C3 witness: the amended persistence-failure behavior on a concrete
fully populated draft with a failing append. -/
theorem C3_witness :
    ∃ r, foto_estado sampleFullDraft envFail = some r ∧
      r.next = ConvState.END ∧
      r.replies.getLast? = some failureReplyText ∧
      r.sheetAppends.length ≤ 1 ∧
      r.userData.fecha_hora = some envFail.nowStamp ∧
      r.userData ≠ emptyUserData ∧
      r.removedFiles ≠ [] :=
  C3_thm sampleFullDraft envFail "ABC123" rfl rfl

/-- C4: within one conversation run (no entry command among the events)
at most one row is ever passed to append_row, and any row a step passes
to append_row is the fila row of a draft whose eight required fields are
all populated, with the step ending the conversation. -/
theorem C4_thm :
    (∀ (s : Sess) (evs : List Event), Event.reporteCmd ∉ evs →
      ((run s evs).2).length ≤ 1) ∧
    (∀ (s : Sess) (ev : Event) (row : List String),
      row ∈ (step s ev).sheetAppends →
      (step s ev).next = ConvState.END ∧
      ∃ a b c d e f g h8,
        (step s ev).userData.fecha_hora = some a ∧
        (step s ev).userData.tipo_jornada = some b ∧
        (step s ev).userData.nombre = some c ∧
        (step s ev).userData.placa = some d ∧
        (step s ev).userData.kilometraje = some e ∧
        (step s ev).userData.link_foto_placa = some f ∧
        (step s ev).userData.link_foto_kilometraje = some g ∧
        (step s ev).userData.link_foto_estado = some h8 ∧
        row = [a, b, c, d, e, f, g, h8]) := by
  constructor
  · intro s evs
    induction evs generalizing s with
    | nil => intro _; simp [run]
    | cons ev rest ih =>
      intro h
      rw [List.mem_cons] at h
      push_neg at h
      rcases step_appends_cases s ev with hA | ⟨hEnd, row, hA, _⟩
      · simpa [run, hA] using ih _ h.2
      · have hrest : run ⟨(step s ev).next, (step s ev).userData⟩ rest =
            (⟨ConvState.END, (step s ev).userData⟩, []) := by
          rw [hEnd]; exact run_from_END _ rest h.2
        simp [run, hA, hrest]
  · intro s ev row hrow
    rcases step_appends_cases s ev with hA | ⟨hEnd, row2, hA, hfila⟩
    · rw [hA] at hrow; cases hrow
    · rw [hA, List.mem_singleton] at hrow
      subst hrow
      exact ⟨hEnd, fila_fields _ _ hfila⟩

/-- C4 witness: a run consisting of the final photo event on a fully
populated draft appends exactly one row, built from the full draft, and
ends the conversation. -/
theorem C4_witness :
    ((run ⟨ConvState.FOTO_ESTADO, sampleFullDraft⟩ [Event.photoMsg envOk]).2).length ≤ 1 ∧
    (step ⟨ConvState.FOTO_ESTADO, sampleFullDraft⟩ (Event.photoMsg envOk)).next =
      ConvState.END :=
  ⟨C4_thm.1 ⟨ConvState.FOTO_ESTADO, sampleFullDraft⟩ [Event.photoMsg envOk] (by decide),
   (C4_thm.2 ⟨ConvState.FOTO_ESTADO, sampleFullDraft⟩ (Event.photoMsg envOk)
      ["2024-01-01 00:00:00", "Inicio de Jornada", "Juan Perez", "ABC123", "1000",
       "linkP", "linkK", "linkE"] (by decide)).1⟩

/-- C5 counterexample: a /reporte issued while a conversation is active
(here in the NOMBRE state, with a journey type already stored) matches
no handler - allow_reentry is left at its default False, the state
handlers exclude commands, and the only fallback is /cancelar - so the
in-flight draft is not replaced by an empty one: state and draft are
unchanged. -/
theorem C5_counterexample :
    (step ⟨ConvState.NOMBRE, sampleMidDraft⟩ Event.reporteCmd).userData ≠ emptyUserData ∧
    (step ⟨ConvState.NOMBRE, sampleMidDraft⟩ Event.reporteCmd).userData = sampleMidDraft ∧
    (step ⟨ConvState.NOMBRE, sampleMidDraft⟩ Event.reporteCmd).next = ConvState.NOMBRE := by
  exact ⟨by decide, rfl, rfl⟩

/-- C5 (amended): a /reporte issued while a conversation is active is
silently ignored - the in-flight draft and the state are unchanged.
Only from the idle terminal position does the entry command run
iniciar_reporte, which clears the user_data dictionary entirely before
entering the journey-type state, so no field of a previously finished
conversation leaks into the new draft. -/
theorem C5_thm (s : Sess) :
    (s.state = ConvState.END →
      (step s Event.reporteCmd).userData = emptyUserData ∧
      (step s Event.reporteCmd).next = ConvState.TIPO_JORNADA) ∧
    (s.state ≠ ConvState.END →
      (step s Event.reporteCmd).userData = s.userData ∧
      (step s Event.reporteCmd).next = s.state) := by
  obtain ⟨st, ud⟩ := s
  cases st <;> simp [step, iniciar_reporte, unhandled]

/-- C5 witness: the amended entry-command behavior, at the idle position
with leftover fields from a finished conversation and at an active
NOMBRE-state session. -/
theorem C5_witness :
    ((step ⟨ConvState.END, sampleMidDraft⟩ Event.reporteCmd).userData = emptyUserData ∧
     (step ⟨ConvState.END, sampleMidDraft⟩ Event.reporteCmd).next = ConvState.TIPO_JORNADA) ∧
    ((step ⟨ConvState.NOMBRE, sampleMidDraft⟩ Event.reporteCmd).userData = sampleMidDraft ∧
     (step ⟨ConvState.NOMBRE, sampleMidDraft⟩ Event.reporteCmd).next = ConvState.NOMBRE) :=
  ⟨(C5_thm ⟨ConvState.END, sampleMidDraft⟩).1 rfl,
   (C5_thm ⟨ConvState.NOMBRE, sampleMidDraft⟩).2 (by decide)⟩

/-- C6: when the Drive upload fails, the upload wrapper returns the fixed
sentinel instead of raising, the plate-photo handler stores that sentinel
as the link field, and the conversation advances to the next photo step. -/
theorem C6_thm (ud : UserData) (env : PhotoEnv) (p : String)
    (hp : ud.placa = some p) (hfail : env.driveOutcome = none) :
    subir_foto_a_drive env.driveOutcome = "Error al subir" ∧
    ∃ r, foto_placa ud env = some r ∧
      r.userData.link_foto_placa = some "Error al subir" ∧
      r.next = ConvState.FOTO_KILOMETRAJE := by
  constructor
  · rw [hfail]; rfl
  · simp only [foto_placa, hp, Option.some.injEq]
    exact ⟨_, rfl, by simp [subir_foto_a_drive, hfail], rfl⟩

/-- C6 witness: the failed-upload behavior on a draft holding a plate. -/
theorem C6_witness :
    subir_foto_a_drive envNoDrive.driveOutcome = "Error al subir" ∧
    ∃ r, foto_placa sampleDraftPlacaOnly envNoDrive = some r ∧
      r.userData.link_foto_placa = some "Error al subir" ∧
      r.next = ConvState.FOTO_KILOMETRAJE :=
  C6_thm sampleDraftPlacaOnly envNoDrive "ABC123" rfl rfl

/-- C7: the row passed to append_row is assembled in exactly the spec
field order - timestamp, journey type, driver name, plate, odometer,
plate-photo link, odometer-photo link, condition-photo link - and the
header row created by inicializar_sheet lists the same fields in the
same positions. -/
theorem C7_thm (ud : UserData) :
    headers = specFieldOrder.map specHeader ∧
    fila ud = specFieldOrder.mapM (fieldValue ud) := by
  refine ⟨rfl, ?_⟩
  obtain ⟨f1, f2, f3, f4, f5, f6, f7, f8, f9, f10, f11⟩ := ud
  cases f11 <;> cases f1 <;> cases f2 <;> cases f3 <;> cases f4 <;>
    cases f5 <;> cases f7 <;> cases f9 <;> rfl

/-- C8: every text input at the plate step is stored as exactly its
uppercase conversion, and the handler always advances to the odometer
step - no format or length check can reject the input. -/
theorem C8_thm (ud : UserData) (t : String) :
    (placa ud t).userData.placa = some t.toUpper ∧
    (placa ud t).next = ConvState.KILOMETRAJE ∧
    (placa ud t).replies = ["Escribe el kilometraje actual:"] := ⟨rfl, rfl, rfl⟩

/-- C9: the journey-type classification is total: every input is stored
as one of the two canonical labels, the handler always advances to the
name step, and any text containing neither the green-circle emoji nor
the substring Inicio is recorded as Fin de Jornada. -/
theorem C9_thm (ud : UserData) (t : String) :
    ((tipo_jornada ud t).userData.tipo_jornada = some "Inicio de Jornada" ∨
     (tipo_jornada ud t).userData.tipo_jornada = some "Fin de Jornada") ∧
    (tipo_jornada ud t).next = ConvState.NOMBRE ∧
    (pyIn "🟢" t = false → pyIn "Inicio" t = false →
      (tipo_jornada ud t).userData.tipo_jornada = some "Fin de Jornada") := by
  refine ⟨?_, rfl, ?_⟩
  · cases h : (pyIn "🟢" t || pyIn "Inicio" t) with
    | true => left; simp [tipo_jornada, h]
    | false => right; simp [tipo_jornada, h]
  · intro h1 h2
    simp [tipo_jornada, h1, h2]

/-- C9 witness: an arbitrary unrecognized text is classified as the end
of a shift. -/
theorem C9_witness :
    (tipo_jornada emptyUserData "hola").userData.tipo_jornada =
      some "Fin de Jornada" :=
  ((C9_thm emptyUserData "hola").2).2 (by decide) (by decide)

/-- C10: each text-step handler writes only its own key: the name
handler fills nombre, the plate handler placa, the odometer handler
kilometraje, and each leaves the other ten fields exactly unchanged. -/
theorem C10_thm (ud : UserData) (t : String) :
    ((nombre ud t).userData.nombre = some t ∧
     (nombre ud t).userData.tipo_jornada = ud.tipo_jornada ∧
     (nombre ud t).userData.placa = ud.placa ∧
     (nombre ud t).userData.kilometraje = ud.kilometraje ∧
     (nombre ud t).userData.link_foto_placa = ud.link_foto_placa ∧
     (nombre ud t).userData.foto_placa_local = ud.foto_placa_local ∧
     (nombre ud t).userData.link_foto_kilometraje = ud.link_foto_kilometraje ∧
     (nombre ud t).userData.foto_km_local = ud.foto_km_local ∧
     (nombre ud t).userData.link_foto_estado = ud.link_foto_estado ∧
     (nombre ud t).userData.foto_estado_local = ud.foto_estado_local ∧
     (nombre ud t).userData.fecha_hora = ud.fecha_hora) ∧
    ((placa ud t).userData.placa = some t.toUpper ∧
     (placa ud t).userData.tipo_jornada = ud.tipo_jornada ∧
     (placa ud t).userData.nombre = ud.nombre ∧
     (placa ud t).userData.kilometraje = ud.kilometraje ∧
     (placa ud t).userData.link_foto_placa = ud.link_foto_placa ∧
     (placa ud t).userData.foto_placa_local = ud.foto_placa_local ∧
     (placa ud t).userData.link_foto_kilometraje = ud.link_foto_kilometraje ∧
     (placa ud t).userData.foto_km_local = ud.foto_km_local ∧
     (placa ud t).userData.link_foto_estado = ud.link_foto_estado ∧
     (placa ud t).userData.foto_estado_local = ud.foto_estado_local ∧
     (placa ud t).userData.fecha_hora = ud.fecha_hora) ∧
    ((kilometraje ud t).userData.kilometraje = some t ∧
     (kilometraje ud t).userData.tipo_jornada = ud.tipo_jornada ∧
     (kilometraje ud t).userData.nombre = ud.nombre ∧
     (kilometraje ud t).userData.placa = ud.placa ∧
     (kilometraje ud t).userData.link_foto_placa = ud.link_foto_placa ∧
     (kilometraje ud t).userData.foto_placa_local = ud.foto_placa_local ∧
     (kilometraje ud t).userData.link_foto_kilometraje = ud.link_foto_kilometraje ∧
     (kilometraje ud t).userData.foto_km_local = ud.foto_km_local ∧
     (kilometraje ud t).userData.link_foto_estado = ud.link_foto_estado ∧
     (kilometraje ud t).userData.foto_estado_local = ud.foto_estado_local ∧
     (kilometraje ud t).userData.fecha_hora = ud.fecha_hora) :=
  ⟨⟨rfl, rfl, rfl, rfl, rfl, rfl, rfl, rfl, rfl, rfl, rfl⟩,
   ⟨rfl, rfl, rfl, rfl, rfl, rfl, rfl, rfl, rfl, rfl, rfl⟩,
   ⟨rfl, rfl, rfl, rfl, rfl, rfl, rfl, rfl, rfl, rfl, rfl⟩⟩

end BotChoferes
